import Mathlib

/-!
Shallow embedding of the behavioral-bias detection engine
(`src/lib/services/biasDetector.ts`) of the tradecoach repository, together
with proofs of the specification's claims about it.

Modelling conventions:
* JavaScript numbers are modelled as exact rationals (`ℚ`).  All score-band
  comparisons in the source are between quantities whose float computation is
  exact or whose bands are far from representation error, so `ℚ` is a faithful
  idealization.
* Division in JS yields `Infinity`/`NaN` when the denominator is zero; in `ℚ`
  division by zero yields 0.  Every call site below is either explicitly
  guarded in the source, or the divergence cannot change any branch outcome
  (noted locally where relevant).
* A trade's ISO timestamp string is used by the source in exactly two ways:
  `timestamp.split('T')[0]` (the calendar-day key) and
  `new Date(timestamp).getTime()` (epoch milliseconds).  `Timestamp` records
  those two projections of a parsed timestamp.
* JS `Array.prototype.sort` is stable; it is modelled by a left-fold insertion
  sort that keeps earlier elements first on ties.
* `String.prototype.localeCompare` is modelled as code-point lexicographic
  comparison, which coincides with it on the ASCII ids and keys the engine
  produces.
* Intervention message strings are reproduced from the source verbatim,
  except that the one contraction in the critical loss-aversion message is
  spelled out ("You are" for the source's contracted form); no claim depends
  on that message.
-/

namespace BiasDetector

/-- The day component and epoch-milliseconds of a parsed ISO timestamp. -/
structure Timestamp where
  day : String
  ms : ℚ
deriving DecidableEq

/-- A trade record (the fields of the source's `Trade` interface that the
engine reads; `session_id`, `user_id`, `asset_type` and `notes` are never
read by any detector and are omitted). `pnl` is the optional realized P&L. -/
structure Trade where
  id : String
  symbol : String
  action : String
  quantity : ℚ
  price : ℚ
  total_value : ℚ
  fees : ℚ
  timestamp : Timestamp
  pnl : Option ℚ
deriving DecidableEq

/-- A position snapshot (the fields of the source's `Position` interface that
the engine reads; the engine only reads `symbol` and `current_value`). -/
structure Position where
  symbol : String
  current_value : ℚ
deriving DecidableEq

/-- An evidence value: JS `number | string`. -/
inductive EvValue where
  | num (q : ℚ)
  | str (s : String)
deriving DecidableEq

/-- An evidence object: key/value pairs in insertion order (JS object with
non-numeric string keys preserves insertion order). -/
abbrev Evidence := List (String × EvValue)

/-- The per-detector result record `DetectionResult`. -/
structure DetectionResult where
  score : ℚ
  evidence : Evidence
  intervention : String
  affectedTrades : List String
deriving DecidableEq

/-- The zero result every detector returns below its minimum sample size. -/
def emptyDetection : DetectionResult :=
  { score := 0, evidence := [], intervention := "", affectedTrades := [] }

/-- `getSeverity` from the source. -/
def getSeverity (score : ℚ) : String :=
  if score ≥ 75 then "critical"
  else if score ≥ 50 then "high"
  else if score ≥ 25 then "medium"
  else "low"

/-- `t.pnl || 0` (JS `||` sends both `undefined` and `0` to `0`). -/
def pnlOf (t : Trade) : ℚ := t.pnl.getD 0

/-- Append a trade to the group of `key`, preserving first-seen key order
(JS `Map` iteration order). -/
def addToGroup (key : String) (t : Trade) :
    List (String × List Trade) → List (String × List Trade)
  | [] => [(key, [t])]
  | (k, ts) :: rest =>
      if k = key then (k, ts ++ [t]) :: rest else (k, ts) :: addToGroup key t rest

/-- `groupTradesByDay` from the source. -/
def groupTradesByDay (trades : List Trade) : List (String × List Trade) :=
  trades.foldl (fun gs t => addToGroup t.timestamp.day t gs) []

/-- `groupTradesBySymbol` from the source. -/
def groupTradesBySymbol (trades : List Trade) : List (String × List Trade) :=
  trades.foldl (fun gs t => addToGroup t.symbol t gs) []

/-- `daysBetween` from the source. -/
def daysBetween (d1 d2 : Timestamp) : ℚ := |d2.ms - d1.ms| / (1000 * 60 * 60 * 24)

/-- `minutesBetween` from the source. -/
def minutesBetween (d1 d2 : Timestamp) : ℚ := |d2.ms - d1.ms| / (1000 * 60)

/-- `hoursBetween` from the source. -/
def hoursBetween (d1 d2 : Timestamp) : ℚ := minutesBetween d1 d2 / 60

/-- `Math.round`: round half toward positive infinity. -/
def jsRound (q : ℚ) : ℚ := ((⌊q + 1/2⌋ : ℤ) : ℚ)

/-- `Math.max(...l)` for a list known nonempty at the call site (the JS
empty-spread value -Infinity never arises: every use is guarded). -/
def jsMaxList (l : List ℚ) : ℚ :=
  match l with
  | [] => 0
  | x :: xs => xs.foldl max x

/-- `Math.min(...l)` for a list known nonempty at the call site. -/
def jsMinList (l : List ℚ) : ℚ :=
  match l with
  | [] => 0
  | x :: xs => xs.foldl min x

/-- `Number(x.toFixed(f))`: the numeric value of `x` rounded to `f` decimal
places, rounding half away from zero (ECMA `toFixed` extracts the sign and
rounds the magnitude with ties going to the larger candidate). -/
def toFixedVal (f : ℕ) (q : ℚ) : ℚ :=
  (if q < 0 then -1 else 1) * (((⌊|q| * (10 : ℚ) ^ f + 1/2⌋ : ℤ) : ℚ) / (10 : ℚ) ^ f)

/-- The digit string of `x.toFixed(f)` (ECMA semantics, on the exact value). -/
def jsToFixedStr (f : ℕ) (q : ℚ) : String :=
  let m : ℕ := (⌊|q| * (10 : ℚ) ^ f + 1/2⌋).toNat
  let sign := if q < 0 then "-" else ""
  if f = 0 then sign ++ toString m
  else
    let ip := m / 10 ^ f
    let fp := m % 10 ^ f
    let fpStr := toString fp
    sign ++ toString ip ++ "." ++ String.mk (List.replicate (f - fpStr.length) '0') ++ fpStr

/-- One step of the source's `stableHash` loop: `(hash << 5) + hash + code`
followed by `>>> 0`, which on exact integers is `(33 * hash + code) mod 2^32`. -/
def stableHashStep (h : ℕ) (c : Char) : ℕ := (h * 33 + c.toNat) % 4294967296

/-- The 32-bit rolling hash value of `stableHash` (DJB2 with seed 5381). -/
def stableHashNat (s : List Char) : ℕ := s.foldl stableHashStep 5381

/-- Digit characters of `Number.prototype.toString(36)`: 0-9 then a-z. -/
def base36DigitChar (n : ℕ) : Char :=
  if n < 10 then Char.ofNat (48 + n) else Char.ofNat (87 + n)

/-- Big-endian base-36 digits; the fuel bounds recursion depth and is ample
for every 32-bit hash value (36^7 > 2^32). -/
def base36Core : ℕ → ℕ → List Char → List Char
  | 0, _, acc => acc
  | fuel + 1, n, acc =>
      if n < 36 then base36DigitChar n :: acc
      else base36Core fuel (n / 36) (base36DigitChar (n % 36) :: acc)

/-- `hash.toString(36)` for the 32-bit hash value. -/
def natToBase36 (n : ℕ) : String := String.mk (base36Core 8 n [])

/-- `.padStart(7, '0').slice(0, 7)` from the source. -/
def padSlice7 (s : String) : String :=
  String.mk ((List.replicate (7 - s.length) '0' ++ s.toList).take 7)

/-- `stableHash` from the source. -/
def stableHash (input : String) : String :=
  padSlice7 (natToBase36 (stableHashNat input.toList))

/-- `normalizeMetricValue` from the source: integers render as decimal
strings, other numbers as fixed 4-decimal strings, strings are trimmed. -/
def normalizeMetricValue : EvValue → String
  | .num q => if q.den = 1 then toString q.num else jsToFixedStr 4 q
  | .str s => s.trim

/-- Insert a key/value pair after all entries of smaller-or-equal key
(stable sort by key, matching the source's `localeCompare` sort). -/
def insertByKey (x : String × EvValue) : Evidence → Evidence
  | [] => [x]
  | y :: ys => if x.1 < y.1 then x :: y :: ys else y :: insertByKey x ys

/-- The evidence entries sorted by key (stable). -/
def sortEvidence (ev : Evidence) : Evidence :=
  ev.foldl (fun acc x => insertByKey x acc) []

/-- `buildEvidenceSignature` from the source. -/
def buildEvidenceSignature (ev : Evidence) : String :=
  String.intercalate "|"
    ((sortEvidence ev).map (fun kv => kv.1 ++ ":" ++ normalizeMetricValue kv.2))

/-- `new Map(trades.map(t => [t.id, t])).get tid`: on duplicate ids the last
trade wins, hence the reversed search. -/
def tradeById (trades : List Trade) (tid : String) : Option Trade :=
  trades.reverse.find? (fun t => t.id == tid)

/-- Add one occurrence of `sym` to the symbol tally, preserving first-seen
key order. -/
def countSymbol (sym : String) : List (String × ℕ) → List (String × ℕ)
  | [] => [(sym, 1)]
  | (k, c) :: rest =>
      if k = sym then (k, c + 1) :: rest else (k, c) :: countSymbol sym rest

/-- The symbol tally of the affected trades (missing trades and empty
symbols are skipped, as in the source). -/
def symbolCounts (affected : List String) (lookupTrade : String → Option Trade) :
    List (String × ℕ) :=
  affected.foldl
    (fun counts tid =>
      match lookupTrade tid with
      | none => counts
      | some t =>
          let sym := t.symbol.trim.toUpper
          if sym = "" then counts else countSymbol sym counts)
    []

/-- Insert a tally entry: count descending, ties by key ascending (the
source's sort comparator), stable. -/
def insertEntry (x : String × ℕ) : List (String × ℕ) → List (String × ℕ)
  | [] => [x]
  | y :: ys =>
      if y.2 < x.2 ∨ (x.2 = y.2 ∧ x.1 < y.1) then x :: y :: ys else y :: insertEntry x ys

/-- `getBiasSymbolContext` from the source. -/
def getBiasSymbolContext (evidence : Evidence) (affected : List String)
    (lookupTrade : String → Option Trade) : String :=
  let fromCounts :=
    match (symbolCounts affected lookupTrade).foldl (fun acc x => insertEntry x acc) [] with
    | [] => "GLOBAL"
    | e :: _ => e.1
  match List.lookup "top_symbol" evidence with
  | some (.str s) => if s.trim = "" then fromCounts else s.trim.toUpper
  | _ => fromCounts

/-- `buildDeterministicBiasId` from the source. -/
def buildDeterministicBiasId (biasType symbol : String) (evidence : Evidence) : String :=
  let signature := buildEvidenceSignature evidence
  biasType ++ "-" ++ symbol ++ "-" ++
    stableHash (biasType ++ "|" ++ symbol ++ "|" ++ signature)

/-- Insert a trade after all trades of earlier-or-equal timestamp: the
stable ascending sort by `getTime()` used throughout the source. -/
def insertTrade (x : Trade) : List Trade → List Trade
  | [] => [x]
  | y :: ys => if x.timestamp.ms < y.timestamp.ms then x :: y :: ys else y :: insertTrade x ys

/-- `[...trades].sort((a, b) => getTime(a) - getTime(b))`. -/
def sortByTime (trades : List Trade) : List Trade :=
  trades.foldl (fun acc t => insertTrade t acc) []

/-- The BUY-then-SELL consecutive pairs of one symbol's time-sorted trades:
`(totalRoundTrips, shortHolds)` where a short hold is under 4 hours
(`detectOvertrading`'s round-trip loop). -/
def roundTripCounts : List Trade → ℕ × ℕ
  | a :: b :: rest =>
      let p := roundTripCounts (b :: rest)
      if a.action = "BUY" ∧ b.action = "SELL" then
        (p.1 + 1, if hoursBetween a.timestamp b.timestamp < 4 then p.2 + 1 else p.2)
      else p
  | _ => (0, 0)

/-- The frequency sub-score of `detectOvertrading`. -/
def frequencyScoreOf (avgDailyTrades : ℚ) : ℚ :=
  if avgDailyTrades ≥ 15 then 90
  else if avgDailyTrades ≥ 10 then 75
  else if avgDailyTrades ≥ 7 then 55
  else if avgDailyTrades ≥ 5 then 35
  else 15

/-- The turnover sub-score of `detectOvertrading`. -/
def turnoverScoreOf (annualTurnover : ℚ) : ℚ :=
  if annualTurnover > 250 then 95
  else if annualTurnover > 100 then 70
  else if annualTurnover > 75 then 50
  else 25

/-- The holding-period sub-score of `detectOvertrading`. -/
def holdingScoreOf (pctShortHolds : ℚ) : ℚ :=
  if pctShortHolds > 70 then 85
  else if pctShortHolds > 50 then 65
  else if pctShortHolds > 30 then 40
  else 20

/-- The weighted composite score of `detectOvertrading`:
`Math.round(frequencyScore * 0.4 + turnoverScore * 0.35 + holdingScore * 0.25)`. -/
def overtradingScore (avgDailyTrades annualTurnover pctShortHolds : ℚ) : ℚ :=
  jsRound (frequencyScoreOf avgDailyTrades * 0.4 + turnoverScoreOf annualTurnover * 0.35 +
    holdingScoreOf pctShortHolds * 0.25)

/-- `detectOvertrading` from the source. -/
def detectOvertrading (trades : List Trade) : DetectionResult :=
  if trades.length < 3 then emptyDetection else
  let tradesByDay := groupTradesByDay trades
  let dailyCounts : List ℚ := tradesByDay.map (fun g => (g.2.length : ℚ))
  let avgDailyTrades := dailyCounts.sum / (dailyCounts.length : ℚ)
  let maxDailyTrades := jsMaxList dailyCounts
  let tradingDays : ℚ := (dailyCounts.length : ℚ)
  let totalTradedValue := (trades.map (·.total_value)).sum
  let avgTradeValue := totalTradedValue / (trades.length : ℚ)
  let estimatedPortfolioValue := avgTradeValue * 10
  let annualTurnover := totalTradedValue / estimatedPortfolioValue * (365 / max tradingDays 1)
  let pairCounts := (groupTradesBySymbol trades).map (fun g => roundTripCounts (sortByTime g.2))
  let totalRoundTrips : ℕ := (pairCounts.map (·.1)).sum
  let shortHolds : ℕ := (pairCounts.map (·.2)).sum
  let pctShortHolds : ℚ :=
    if totalRoundTrips > 0 then (shortHolds : ℚ) / (totalRoundTrips : ℚ) * 100 else 0
  let score := overtradingScore avgDailyTrades annualTurnover pctShortHolds
  let intervention :=
    if score ≥ 75 then
      "Critical: " ++ jsToFixedStr 1 avgDailyTrades ++ " trades/day with " ++
        jsToFixedStr 0 annualTurnover ++
        "% annual turnover. Research shows this reduces returns by 6.5% annually."
    else if score ≥ 50 then
      "High trading frequency (" ++ jsToFixedStr 1 avgDailyTrades ++
        "/day). Consider limiting to 3-5 trades per day."
    else if score ≥ 25 then "Moderate trading frequency. Monitor for escalation."
    else "Trading frequency is healthy and disciplined."
  { score := score
    evidence :=
      [("avg_daily_trades", .num (toFixedVal 2 avgDailyTrades)),
       ("max_daily_trades", .num maxDailyTrades),
       ("annual_turnover_pct", .num (toFixedVal 0 annualTurnover)),
       ("pct_short_holds", .num (toFixedVal 1 pctShortHolds))]
    intervention := intervention
    affectedTrades := [] }

/-- The longest run of consecutive losing trades in a time-sorted list
(`detectLossAversion`'s streak loop). -/
def maxLossStreakOf (sorted : List Trade) : ℕ :=
  (sorted.foldl
    (fun (p : ℕ × ℕ) t =>
      if pnlOf t < 0 then (max p.1 (p.2 + 1), p.2 + 1) else (p.1, 0))
    (0, 0)).1

/-- The additive score of `detectLossAversion` (capped at 100). -/
def lossAversionScore (lossWinRatio winRate maxLossWinRatio : ℚ) (maxLossStreak : ℕ) : ℚ :=
  let s1 : ℚ :=
    if lossWinRatio ≥ 2.0 then 40
    else if lossWinRatio ≥ 1.5 then 30
    else if lossWinRatio ≥ 1.2 then 20
    else 10
  let s2 : ℚ :=
    if winRate < 50 ∧ lossWinRatio > 1.0 then 25
    else if winRate < 40 then 20
    else if winRate < 50 then 10
    else 0
  let s3 : ℚ :=
    if maxLossWinRatio ≥ 3.0 then 25
    else if maxLossWinRatio ≥ 2.0 then 15
    else if maxLossWinRatio ≥ 1.5 then 10
    else 0
  let s4 : ℚ := if maxLossStreak ≥ 5 then 10 else 0
  min 100 (s1 + s2 + s3 + s4)

/-- `detectLossAversion` from the source. -/
def detectLossAversion (trades : List Trade) : DetectionResult :=
  if trades.length < 5 then emptyDetection else
  let winners := trades.filter (fun t => pnlOf t > 0)
  let losers := trades.filter (fun t => pnlOf t < 0)
  let affectedTrades := losers.map (·.id)
  if winners.length = 0 ∨ losers.length = 0 then
    { score := 15, evidence := [],
      intervention := "Not enough mixed results to analyze.", affectedTrades := [] }
  else
  let avgWin := (winners.map pnlOf).sum / (winners.length : ℚ)
  let avgLoss := |(losers.map pnlOf).sum / (losers.length : ℚ)|
  let lossWinRatio := if avgWin > 0 then avgLoss / avgWin else 0
  let winRate := (winners.length : ℚ) / (trades.length : ℚ) * 100
  let maxWin := jsMaxList (winners.map pnlOf)
  let maxLoss := |jsMinList (losers.map pnlOf)|
  let maxLossWinRatio := if maxWin > 0 then maxLoss / maxWin else 0
  let maxLossStreak := maxLossStreakOf (sortByTime trades)
  let score := lossAversionScore lossWinRatio winRate maxLossWinRatio maxLossStreak
  let intervention :=
    if score ≥ 75 then
      "Critical loss aversion: Avg loss ($" ++ jsToFixedStr 0 avgLoss ++ ") is " ++
        jsToFixedStr 1 lossWinRatio ++ "x larger than avg win ($" ++ jsToFixedStr 0 avgWin ++
        "). You are letting losses run while cutting winners early. Set strict stop-losses."
    else if score ≥ 50 then
      "Moderate loss aversion detected. Avg loss ($" ++ jsToFixedStr 0 avgLoss ++
        ") exceeds avg win ($" ++ jsToFixedStr 0 avgWin ++ "). Consider tighter stop-losses."
    else if score ≥ 25 then "Mild loss aversion tendency. Monitor your loss sizes carefully."
    else "Good balance between wins and losses."
  { score := score
    evidence :=
      [("avg_win", .num (toFixedVal 2 avgWin)),
       ("avg_loss", .num (toFixedVal 2 avgLoss)),
       ("loss_win_ratio", .num (toFixedVal 2 lossWinRatio)),
       ("win_rate_pct", .num (toFixedVal 1 winRate)),
       ("max_win", .num (toFixedVal 2 maxWin)),
       ("max_loss", .num (toFixedVal 2 maxLoss)),
       ("max_loss_streak", .num (maxLossStreak : ℚ))]
    intervention := intervention
    affectedTrades := affectedTrades }

/-- One recorded revenge-trading instance. -/
structure RevengeInstance where
  lossAmount : ℚ
  timeToReentry : ℚ
  sizeIncrease : ℚ
  tradeId : String
deriving DecidableEq

/-- The revenge instances found over consecutive pairs of the time-sorted
trades (`detectRevengeTrading`'s main loop): the previous trade is a
significant loss (over 2% of its value, or any loss over $50) and the next
trade is a rapid reentry (under 30 minutes) or a size escalation (ratio
above 1.3). -/
def revengePairs : List Trade → List RevengeInstance
  | prev :: curr :: rest =>
      let tail := revengePairs (curr :: rest)
      let pnl := pnlOf prev
      let isSignificantLoss := pnl < 0 ∧ |pnl| > prev.total_value * 0.02
      if isSignificantLoss ∨ pnl < -50 then
        let timeGap := minutesBetween prev.timestamp curr.timestamp
        let sizeRatio := curr.total_value / prev.total_value
        if timeGap < 30 ∨ sizeRatio > 1.3 then
          { lossAmount := |pnl|, timeToReentry := timeGap,
            sizeIncrease := (sizeRatio - 1) * 100, tradeId := curr.id } :: tail
        else tail
      else tail
  | _ => []

/-- The instances where the full pattern holds: reentry under 30 minutes AND
size increase above 30%. -/
def fullPatternMatches (instances : List RevengeInstance) : ℕ :=
  (instances.filter (fun r => r.timeToReentry < 30 ∧ r.sizeIncrease > 30)).length

/-- The score bands of `detectRevengeTrading`. -/
def revengeScore (fullMatches numInstances : ℕ) : ℚ :=
  if fullMatches ≥ 2 then 90
  else if numInstances ≥ 3 then 75
  else if numInstances ≥ 2 then 55
  else if numInstances ≥ 1 then 35
  else 10

/-- `detectRevengeTrading` from the source. -/
def detectRevengeTrading (trades : List Trade) : DetectionResult :=
  if trades.length < 3 then emptyDetection else
  let sorted := sortByTime trades
  let revengeInstances := revengePairs sorted
  let affectedTrades := revengeInstances.map (·.tradeId)
  let revengeRate := (revengeInstances.length : ℚ) / ((sorted.length : ℚ) - 1) * 100
  let fullMatches := fullPatternMatches revengeInstances
  let score := revengeScore fullMatches revengeInstances.length
  let avgTimeToReentry :=
    if revengeInstances.length > 0 then
      (revengeInstances.map (·.timeToReentry)).sum / (revengeInstances.length : ℚ)
    else 0
  let avgSizeIncrease :=
    if revengeInstances.length > 0 then
      (revengeInstances.map (·.sizeIncrease)).sum / (revengeInstances.length : ℚ)
    else 0
  let instanceCountStr := toString revengeInstances.length
  let intervention :=
    if score ≥ 75 then
      "Critical: " ++ instanceCountStr ++ " revenge trades detected. After losses, you re-enter in " ++
        jsToFixedStr 0 avgTimeToReentry ++ " min with " ++ jsToFixedStr 0 avgSizeIncrease ++
        "% larger positions. Implement 30-min cooling period."
    else if score ≥ 50 then
      "Revenge trading pattern detected. Wait 30+ minutes after any loss before trading again."
    else if score ≥ 25 then
      "Mild revenge trading tendency. Monitor emotional state after losses."
    else "Good emotional control after losses."
  { score := score
    evidence :=
      [("revenge_instances", .num (revengeInstances.length : ℚ)),
       ("revenge_rate_pct", .num (toFixedVal 1 revengeRate)),
       ("avg_time_to_reentry_min", .num (toFixedVal 1 avgTimeToReentry)),
       ("avg_size_increase_pct", .num (toFixedVal 1 avgSizeIncrease))]
    intervention := intervention
    affectedTrades := affectedTrades }

/-- `(quickExitsAfterWin, totalWinFollowups, affected ids)` over consecutive
pairs of the time-sorted trades (`detectDispositionEffect`'s loop): a winner
followed by another trade within 5 minutes is a quick exit after a win. -/
def quickExitStats : List Trade → ℕ × ℕ × List String
  | curr :: next :: rest =>
      let p := quickExitStats (next :: rest)
      if pnlOf curr > 0 then
        if minutesBetween curr.timestamp next.timestamp < 5 then
          (p.1 + 1, p.2.1 + 1, curr.id :: p.2.2)
        else (p.1, p.2.1 + 1, p.2.2)
      else p
  | _ => (0, 0, [])

/-- The additive score of `detectDispositionEffect` (capped at 100). -/
def dispositionScore (winLossRatio pctSmallWins pctQuickAfterWin : ℚ) : ℚ :=
  let s1 : ℚ :=
    if winLossRatio < 0.5 then 40
    else if winLossRatio < 0.75 then 30
    else if winLossRatio < 1.0 then 20
    else 5
  let s2 : ℚ :=
    if pctSmallWins > 60 then 25
    else if pctSmallWins > 40 then 15
    else 5
  let s3 : ℚ :=
    if pctQuickAfterWin > 50 then 20
    else if pctQuickAfterWin > 30 then 10
    else 0
  min 100 (s1 + s2 + s3)

/-- `detectDispositionEffect` from the source. -/
def detectDispositionEffect (trades : List Trade) : DetectionResult :=
  if trades.length < 5 then emptyDetection else
  let sorted := sortByTime trades
  let winners := trades.filter (fun t => pnlOf t > 0)
  let losers := trades.filter (fun t => pnlOf t < 0)
  if winners.length = 0 ∨ losers.length = 0 then
    { score := 10, evidence := [],
      intervention := "Not enough mixed results for disposition analysis.", affectedTrades := [] }
  else
  let avgWinSize := (winners.map pnlOf).sum / (winners.length : ℚ)
  let avgLossSize := |(losers.map pnlOf).sum / (losers.length : ℚ)|
  let winLossRatio := avgWinSize / avgLossSize
  let stats := quickExitStats sorted
  let pctQuickAfterWin :=
    if stats.2.1 > 0 then (stats.1 : ℚ) / (stats.2.1 : ℚ) * 100 else 0
  let smallWins := (winners.filter (fun t => pnlOf t < avgWinSize * 0.5)).length
  let pctSmallWins := (smallWins : ℚ) / (winners.length : ℚ) * 100
  let score := dispositionScore winLossRatio pctSmallWins pctQuickAfterWin
  let ratioPctStr := jsToFixedStr 0 (winLossRatio * 100)
  let intervention :=
    if score ≥ 75 then
      "Strong disposition effect: Avg win ($" ++ jsToFixedStr 0 avgWinSize ++ ") is only " ++
        ratioPctStr ++ "% of avg loss ($" ++ jsToFixedStr 0 avgLossSize ++ "). Let winners run longer!"
    else if score ≥ 50 then
      "Disposition effect detected: Taking profits too quickly. " ++
        jsToFixedStr 0 pctSmallWins ++ "% of wins are below average."
    else if score ≥ 25 then
      "Mild disposition tendency. Consider using trailing stops to let winners run."
    else "Good balance between letting winners run and cutting losses."
  { score := score
    evidence :=
      [("avg_win_size", .num (toFixedVal 2 avgWinSize)),
       ("avg_loss_size", .num (toFixedVal 2 avgLossSize)),
       ("win_loss_ratio", .num (toFixedVal 2 winLossRatio)),
       ("pct_small_wins", .num (toFixedVal 1 pctSmallWins)),
       ("pct_quick_after_win", .num (toFixedVal 1 pctQuickAfterWin))]
    intervention := intervention
    affectedTrades := stats.2.2 }

/-- One recorded risk-escalation event. -/
structure EscalationEvent where
  streakLength : ℕ
  sizeIncreasePct : ℚ
  tradeId : String
deriving DecidableEq

/-- `detectRiskEscalation`'s loop over the time-sorted trades: while at least
two losses deep in a losing streak, a position-size increase above 25% over
the immediately preceding trade is recorded.  `prev` is the previous trade
(`i > 0` in the source) and `streak` the current losing-streak length. -/
def escalationLoop (prev : Option Trade) (streak : ℕ) : List Trade → List EscalationEvent
  | [] => []
  | t :: rest =>
      if pnlOf t < 0 then
        let streak' := streak + 1
        let tail := escalationLoop (some t) streak' rest
        match prev with
        | some p =>
            if streak' ≥ 2 then
              let sizeIncrease := (t.total_value / p.total_value - 1) * 100
              if sizeIncrease > 25 then
                { streakLength := streak', sizeIncreasePct := sizeIncrease, tradeId := t.id } :: tail
              else tail
            else tail
        | none => tail
      else escalationLoop (some t) 0 rest

/-- The score bands of `detectRiskEscalation`. -/
def riskEscalationScore (maxEscalation : ℚ) (numEvents : ℕ) : ℚ :=
  if maxEscalation > 100 then 95
  else if maxEscalation > 50 then 75
  else if numEvents ≥ 2 then 60
  else if numEvents ≥ 1 then 40
  else 10

/-- `detectRiskEscalation` from the source. -/
def detectRiskEscalation (trades : List Trade) : DetectionResult :=
  if trades.length < 4 then emptyDetection else
  let sorted := sortByTime trades
  let escalationEvents := escalationLoop none 0 sorted
  let affectedTrades := escalationEvents.map (·.tradeId)
  let maxEscalation :=
    if escalationEvents.length > 0 then jsMaxList (escalationEvents.map (·.sizeIncreasePct))
    else 0
  let score := riskEscalationScore maxEscalation escalationEvents.length
  let intervention :=
    if score ≥ 90 then
      "CRITICAL: Martingale detected! Doubling position after losses leads to ruin 89% of the time. Use FIXED 1% risk per trade."
    else if score ≥ 75 then
      "Risk escalation during losses (" ++ jsToFixedStr 0 maxEscalation ++
        "% size increase). Limit position size to 50% of previous after any loss."
    else if score ≥ 50 then
      "Gradual risk increase during losing periods detected. Maintain consistent sizing."
    else "Good risk management during losing periods."
  { score := score
    evidence :=
      [("escalation_events", .num (escalationEvents.length : ℚ)),
       ("max_size_increase_pct", .num (toFixedVal 1 maxEscalation)),
       ("longest_losing_streak",
         .num (((escalationEvents.map (·.streakLength)).foldl max 0 : ℕ) : ℚ))]
    intervention := intervention
    affectedTrades := affectedTrades }

/-- One recorded hot-hand episode. -/
structure HotHandEpisode where
  streakLength : ℕ
  sizeIncreasePct : ℚ
  postStreakPnl : ℚ
deriving DecidableEq

/-- `detectOverconfidence`'s loop over the time-sorted trades: on the third
or later win of a streak, a position size above 20% over the 3-trade
baseline records an episode, whose post-streak P&L sums the next up-to-3
trades. Returns the episodes and the affected trade ids. -/
def hotHandLoop (baseline : ℚ) : List Trade → ℕ → List HotHandEpisode × List String
  | [], _ => ([], [])
  | t :: rest, streak =>
      if pnlOf t > 0 then
        let streak' := streak + 1
        let p := hotHandLoop baseline rest streak'
        if streak' ≥ 3 then
          let sizeIncrease := (t.total_value / baseline - 1) * 100
          if sizeIncrease > 20 then
            ({ streakLength := streak', sizeIncreasePct := sizeIncrease,
               postStreakPnl := ((rest.take 3).map pnlOf).sum } :: p.1, t.id :: p.2)
          else p
        else p
      else hotHandLoop baseline rest 0

/-- The score bands of `detectOverconfidence`. -/
def overconfidenceScore (numEpisodes : ℕ) (avgPostStreakPnl : ℚ)
    (frequencyOverconfidence : Bool) : ℚ :=
  if numEpisodes ≥ 3 ∧ avgPostStreakPnl < 0 then 80
  else if numEpisodes ≥ 2 ∨ frequencyOverconfidence then 60
  else if numEpisodes ≥ 1 then 40
  else 15

/-- `detectOverconfidence` from the source. -/
def detectOverconfidence (trades : List Trade) : DetectionResult :=
  if trades.length < 5 then emptyDetection else
  let sorted := sortByTime trades
  let baselineSize := ((sorted.take 3).map (·.total_value)).sum / 3
  let ep := hotHandLoop baselineSize sorted 0
  let hotHandEpisodes := ep.1
  let winRate := ((sorted.filter (fun t => pnlOf t > 0)).length : ℚ) / (sorted.length : ℚ)
  let firstTs := (sorted.head?.map (·.timestamp)).getD { day := "", ms := 0 }
  let lastTs := (sorted.getLast?.map (·.timestamp)).getD { day := "", ms := 0 }
  let tradesPerDay := (sorted.length : ℚ) / max 1 (daysBetween firstTs lastTs)
  let frequencyOverconfidence : Bool := tradesPerDay > 5 ∧ winRate < 0.55
  let avgPostStreakPnl :=
    if hotHandEpisodes.length > 0 then
      (hotHandEpisodes.map (·.postStreakPnl)).sum / (hotHandEpisodes.length : ℚ)
    else 0
  let score := overconfidenceScore hotHandEpisodes.length avgPostStreakPnl frequencyOverconfidence
  let episodeCountStr := toString hotHandEpisodes.length
  let intervention :=
    if score ≥ 75 then
      "Overconfidence detected: After winning streaks you increase risk, but post-streak returns are negative. Maintain consistent sizing."
    else if score ≥ 50 then
      "Hot-hand tendency: " ++ episodeCountStr ++
        " episodes of increased risk after wins. Each trade is independent."
    else "Good humility after winning trades."
  { score := score
    evidence :=
      [("hot_hand_episodes", .num (hotHandEpisodes.length : ℚ)),
       ("avg_size_increase_after_wins_pct",
         .num (if hotHandEpisodes.length > 0 then
            toFixedVal 1
              ((hotHandEpisodes.map (·.sizeIncreasePct)).sum / (hotHandEpisodes.length : ℚ))
          else 0)),
       ("avg_post_streak_pnl", .num (toFixedVal 2 avgPostStreakPnl)),
       ("win_rate_pct", .num (toFixedVal 1 (winRate * 100)))]
    intervention := intervention
    affectedTrades := ep.2 }

/-- Insert a share into a descending-sorted list, after equal ones (the
stable descending numeric sort of `detectConcentration`). -/
def insertDescQ (x : ℚ) : List ℚ → List ℚ
  | [] => [x]
  | y :: ys => if x > y then x :: y :: ys else y :: insertDescQ x ys

/-- The score bands of `detectConcentration` (Statman HHI thresholds). -/
def concentrationScore (hhi : ℚ) : ℚ :=
  if hhi > 0.50 then 95
  else if hhi > 0.25 then 70
  else if hhi > 0.15 then 45
  else 15

/-- `detectConcentration` from the source. -/
def detectConcentration (trades : List Trade) (positions : List Position) : DetectionResult :=
  if positions.length = 0 then emptyDetection else
  let totalValue := (positions.map (·.current_value)).sum
  let marketShares := positions.map (fun p => p.current_value / totalValue)
  let hhi := (marketShares.map (fun share => share * share)).sum
  let maxAllocation := jsMaxList marketShares * 100
  let topSymbol :=
    ((positions.find? (fun p => p.current_value / totalValue * 100 == maxAllocation)).map
      (·.symbol)).getD ""
  let sortedShares := marketShares.foldl (fun acc x => insertDescQ x acc) []
  let top3Concentration := (sortedShares.take 3).sum * 100
  let score := concentrationScore hhi
  let intervention :=
    if score ≥ 90 then
      "CRITICAL: " ++ jsToFixedStr 0 maxAllocation ++ "% in " ++ topSymbol ++ "! HHI=" ++
        jsToFixedStr 2 hhi ++ " indicates extreme concentration. Diversify to 8-10+ symbols."
    else if score ≥ 70 then
      "High concentration (HHI=" ++ jsToFixedStr 2 hhi ++ "). Top 3 = " ++
        jsToFixedStr 0 top3Concentration ++ "%. Target <60% for top 3."
    else if score ≥ 45 then "Moderate concentration. Consider adding 3-5 more positions."
    else "Well-diversified portfolio."
  { score := score
    evidence :=
      [("herfindahl_index", .num (toFixedVal 3 hhi)),
       ("max_allocation_pct", .num (toFixedVal 1 maxAllocation)),
       ("top_symbol", .str topSymbol),
       ("top_3_concentration_pct", .num (toFixedVal 1 top3Concentration)),
       ("num_positions", .num (positions.length : ℚ))]
    intervention := intervention
    affectedTrades := [] }

/-- The total fees of the trade list (`detectFeeDrag`). -/
def totalFeesOf (trades : List Trade) : ℚ := (trades.map (·.fees)).sum

/-- The gross P&L of `detectFeeDrag`: realized P&L plus all fees. -/
def grossPnlOf (trades : List Trade) : ℚ := (trades.map pnlOf).sum + totalFeesOf trades

/-- The fee-drag ratio of `detectFeeDrag`: fees as a percentage of the
absolute gross P&L, with the division explicitly guarded to 0 when the
gross P&L is exactly zero. -/
def feeDragRatioOf (trades : List Trade) : ℚ :=
  if grossPnlOf trades ≠ 0 then totalFeesOf trades / |grossPnlOf trades| * 100 else 0

/-- The score bands of `detectFeeDrag`. -/
def feeDragScore (feeDragRatio annualizedFeeDrag : ℚ) : ℚ :=
  if feeDragRatio > 30 ∨ annualizedFeeDrag > 5 then 90
  else if feeDragRatio > 15 ∨ annualizedFeeDrag > 3 then 70
  else if feeDragRatio > 5 ∨ annualizedFeeDrag > 1.5 then 45
  else 15

/-- `detectFeeDrag` from the source. -/
def detectFeeDrag (trades : List Trade) : DetectionResult :=
  if trades.length = 0 then emptyDetection else
  let totalFees := totalFeesOf trades
  let grossPnl := grossPnlOf trades
  let netPnl := (trades.map pnlOf).sum
  let feeDragRatio := feeDragRatioOf trades
  let tradingDays := ((trades.map (fun t => t.timestamp.day)).dedup).length
  let totalVolume := (trades.map (·.total_value)).sum
  let annualizedFeeDrag := totalFees / totalVolume * (365 / max (tradingDays : ℚ) 1) * 100
  let tradesWhereFeeExceededProfit := (trades.filter (fun t => |pnlOf t| < t.fees)).length
  let pctTradesBelowFee := (tradesWhereFeeExceededProfit : ℚ) / (trades.length : ℚ) * 100
  let score := feeDragScore feeDragRatio annualizedFeeDrag
  let intervention :=
    if score ≥ 90 then
      "CRITICAL: Fees consuming " ++ jsToFixedStr 0 feeDragRatio ++ "% of gains (" ++
        jsToFixedStr 1 annualizedFeeDrag ++ "% annually). Reduce trading frequency by 75%."
    else if score ≥ 70 then
      "High fee drag (" ++ jsToFixedStr 0 feeDragRatio ++ "% of profits). Cut frequency in half."
    else if score ≥ 45 then "Moderate fee drag. Review if each trade justifies the cost."
    else "Fee efficiency is good."
  { score := score
    evidence :=
      [("total_fees", .num (toFixedVal 2 totalFees)),
       ("gross_pnl", .num (toFixedVal 2 grossPnl)),
       ("net_pnl", .num (toFixedVal 2 netPnl)),
       ("fee_drag_ratio_pct", .num (toFixedVal 1 feeDragRatio)),
       ("annualized_fee_drag_pct", .num (toFixedVal 2 annualizedFeeDrag)),
       ("pct_trades_where_fees_exceeded_profit", .num (toFixedVal 1 pctTradesBelowFee))]
    intervention := intervention
    affectedTrades := [] }

/-- One recorded churn instance. -/
structure ChurnInstance where
  symbol : String
  holdingDays : ℚ
  pnl : ℚ
  fees : ℚ
deriving DecidableEq

/-- JS `x || y` on an optional number: `undefined` and `0` both fall back. -/
def jsOrQ (x : Option ℚ) (y : ℚ) : ℚ :=
  match x with
  | some p => if p = 0 then y else p
  | none => y

/-- `detectChurn`'s loop over one symbol's time-sorted trades: consecutive
BUY-then-SELL pairs held under 7 days, with the instances and affected sell
ids. -/
def churnPairs (symbol : String) : List Trade → List ChurnInstance × List String
  | buy :: sell :: rest =>
      let p := churnPairs symbol (sell :: rest)
      if buy.action = "BUY" ∧ sell.action = "SELL" then
        let holdingDays := daysBetween buy.timestamp sell.timestamp
        if holdingDays < 7 then
          ({ symbol := symbol, holdingDays := holdingDays,
             pnl := jsOrQ sell.pnl ((sell.price - buy.price) * buy.quantity),
             fees := buy.fees + sell.fees } :: p.1, sell.id :: p.2)
        else p
      else p
  | _ => ([], [])

/-- The score bands of `detectChurn`. -/
def churnScore (churnRate avgChurnPnl : ℚ) : ℚ :=
  if churnRate > 40 ∧ avgChurnPnl < 0 then 80
  else if churnRate > 30 then 60
  else if churnRate > 20 then 40
  else if churnRate > 10 then 25
  else 10

/-- `detectChurn` from the source. -/
def detectChurn (trades : List Trade) : DetectionResult :=
  if trades.length < 4 then emptyDetection else
  let perSymbol := (groupTradesBySymbol trades).map (fun g => churnPairs g.1 (sortByTime g.2))
  let churnInstances := (perSymbol.map (·.1)).flatten
  let affectedTrades := (perSymbol.map (·.2)).flatten
  let churnRate :=
    if trades.length > 0 then (churnInstances.length : ℚ) / (trades.length : ℚ) * 100 else 0
  let avgChurnPnl :=
    if churnInstances.length > 0 then
      (churnInstances.map (·.pnl)).sum / (churnInstances.length : ℚ)
    else 0
  let totalValueLostToChurn :=
    ((churnInstances.filter (fun c => c.pnl - c.fees < 0)).map (fun c => c.pnl - c.fees)).sum
  let score := churnScore churnRate avgChurnPnl
  let intervention :=
    if score ≥ 75 then
      jsToFixedStr 0 churnRate ++ "% of trades are churn (<7 day round-trips) losing avg $" ++
        jsToFixedStr 0 |avgChurnPnl| ++ ". Hold positions longer."
    else if score ≥ 50 then
      "Significant churn detected (" ++ jsToFixedStr 0 churnRate ++
        "% quick flips). Extend holding periods."
    else if score ≥ 25 then "Some short-term trading. Consider if quick exits are justified."
    else "Good holding discipline."
  { score := score
    evidence :=
      [("churn_instances", .num (churnInstances.length : ℚ)),
       ("churn_rate_pct", .num (toFixedVal 1 churnRate)),
       ("avg_churn_pnl", .num (toFixedVal 2 avgChurnPnl)),
       ("total_value_lost_to_churn", .num (toFixedVal 2 totalValueLostToChurn)),
       ("avg_churn_holding_days",
         .num (if churnInstances.length > 0 then
            toFixedVal 1 ((churnInstances.map (·.holdingDays)).sum / (churnInstances.length : ℚ))
          else 0))]
    intervention := intervention
    affectedTrades := affectedTrades }

/-- The output record `BiasDetection`.  The source additionally nests
`{ summary, key_metrics, timestamps: [] }` under an `evidence` field whose
`summary` duplicates `intervention` and whose `key_metrics` duplicates
`metrics`; the embedding keeps the non-redundant fields. `detected_at` is
`new Date().toISOString()`, passed in as the `now` argument. -/
structure BiasDetection where
  id : String
  session_id : String
  bias_type : String
  score : ℚ
  severity : String
  metrics : Evidence
  affected_trades : List String
  intervention : String
  detected_at : String
deriving DecidableEq

/-- The summary block of `BiasAnalysisResult`. -/
structure AnalysisSummary where
  totalBiases : ℕ
  criticalBiases : ℕ
  highBiases : ℕ
  topConcern : String
deriving DecidableEq

/-- `BiasAnalysisResult` from the source. -/
structure BiasAnalysisResult where
  biases : List BiasDetection
  disciplineScore : ℚ
  summary : AnalysisSummary
deriving DecidableEq

/-- The nine detectors in the order the aggregator runs them, paired with
their `BiasType` names. -/
def detectorResults (trades : List Trade) (positions : List Position) :
    List (String × DetectionResult) :=
  [("overtrading", detectOvertrading trades),
   ("loss_aversion", detectLossAversion trades),
   ("revenge_trading", detectRevengeTrading trades),
   ("disposition_effect", detectDispositionEffect trades),
   ("risk_escalation", detectRiskEscalation trades),
   ("overconfidence", detectOverconfidence trades),
   ("concentration_bias", detectConcentration trades positions),
   ("fee_drag", detectFeeDrag trades),
   ("churn", detectChurn trades)]

/-- The nine raw detector scores, in detector order. -/
def rawScores (trades : List Trade) (positions : List Position) : List ℚ :=
  (detectorResults trades positions).map (fun p => p.2.score)

/-- Assembly of one output record from a detector's type name and result
(the body of the aggregator's `if (result.score > 0)` block). -/
def assembleBias (trades : List Trade) (now : String) (p : String × DetectionResult) :
    BiasDetection :=
  let symbol := getBiasSymbolContext p.2.evidence p.2.affectedTrades (tradeById trades)
  { id := buildDeterministicBiasId p.1 symbol p.2.evidence
    session_id := "current"
    bias_type := p.1
    score := p.2.score
    severity := getSeverity p.2.score
    metrics := p.2.evidence
    affected_trades := p.2.affectedTrades
    intervention := p.2.intervention
    detected_at := now }

/-- The unsorted output records: exactly the detections with positive score,
in detector order. -/
def assembledBiases (trades : List Trade) (positions : List Position) (now : String) :
    List BiasDetection :=
  ((detectorResults trades positions).filter (fun p => p.2.score > 0)).map
    (assembleBias trades now)

/-- The strict order of the aggregator's sort comparator: score descending,
ties by id ascending. -/
def biasBefore (a b : BiasDetection) : Prop :=
  b.score < a.score ∨ (a.score = b.score ∧ a.id < b.id)

instance : DecidablePred fun p : BiasDetection × BiasDetection => biasBefore p.1 p.2 :=
  fun _ => by unfold biasBefore; infer_instance

instance (a b : BiasDetection) : Decidable (biasBefore a b) := by
  unfold biasBefore; infer_instance

/-- The non-strict companion of `biasBefore`, used to state sortedness. -/
def biasLE (a b : BiasDetection) : Prop :=
  b.score < a.score ∨ (a.score = b.score ∧ a.id ≤ b.id)

/-- Insert a record after all records that do not strictly follow it (the
stable sort of the aggregator). -/
def insertBias (x : BiasDetection) : List BiasDetection → List BiasDetection
  | [] => [x]
  | y :: ys => if biasBefore x y then x :: y :: ys else y :: insertBias x ys

/-- `biases.sort((a, b) => b.score - a.score || a.id.localeCompare(b.id))`. -/
def sortBiases (l : List BiasDetection) : List BiasDetection :=
  l.foldl (fun acc x => insertBias x acc) []

/-- `biases[0]?.bias_type || 'none'`. -/
def topConcernOf (biases : List BiasDetection) : String :=
  match biases with
  | [] => "none"
  | b :: _ => if b.bias_type = "" then "none" else b.bias_type

/-- `analyzeBiases` from the source, the engine's entry point.  `now` is the
`new Date().toISOString()` value stamped into `detected_at`. -/
def analyzeBiases (trades : List Trade) (positions : List Position) (now : String) :
    BiasAnalysisResult :=
  let results := detectorResults trades positions
  let totalScore := (results.map (fun p => p.2.score)).sum
  let biases := sortBiases (assembledBiases trades positions now)
  let avgBiasScore := if results.length > 0 then totalScore / (results.length : ℚ) else 0
  let disciplineScore := max 0 (min 100 (100 - avgBiasScore))
  { biases := biases
    disciplineScore := jsRound disciplineScore
    summary :=
      { totalBiases := biases.length
        criticalBiases := (biases.filter (fun b => b.severity = "critical")).length
        highBiases := (biases.filter (fun b => b.severity = "high")).length
        topConcern := topConcernOf biases } }

/-! ## Helper lemmas -/

theorem le_jsRound {q : ℚ} {n : ℤ} (h : (n : ℚ) ≤ q + 1/2) : (n : ℚ) ≤ jsRound q := by
  unfold jsRound
  exact_mod_cast Int.le_floor.mpr h

theorem jsRound_le {q : ℚ} {n : ℤ} (h : q + 1/2 < (n : ℚ) + 1) : jsRound q ≤ (n : ℚ) := by
  unfold jsRound
  have : ⌊q + 1/2⌋ < n + 1 := Int.floor_lt.mpr (by push_cast; linarith)
  exact_mod_cast Int.lt_add_one_iff.mp this

theorem frequencyScoreOf_bounds (x : ℚ) : 15 ≤ frequencyScoreOf x ∧ frequencyScoreOf x ≤ 90 := by
  unfold frequencyScoreOf; split_ifs <;> norm_num

theorem turnoverScoreOf_bounds (x : ℚ) : 25 ≤ turnoverScoreOf x ∧ turnoverScoreOf x ≤ 95 := by
  unfold turnoverScoreOf; split_ifs <;> norm_num

theorem holdingScoreOf_bounds (x : ℚ) : 20 ≤ holdingScoreOf x ∧ holdingScoreOf x ≤ 85 := by
  unfold holdingScoreOf; split_ifs <;> norm_num

theorem overtradingScore_bounds (a b c : ℚ) :
    20 ≤ overtradingScore a b c ∧ overtradingScore a b c ≤ 91 := by
  obtain ⟨hf1, hf2⟩ := frequencyScoreOf_bounds a
  obtain ⟨ht1, ht2⟩ := turnoverScoreOf_bounds b
  obtain ⟨hh1, hh2⟩ := holdingScoreOf_bounds c
  unfold overtradingScore
  constructor
  · have := le_jsRound (q := frequencyScoreOf a * 0.4 + turnoverScoreOf b * 0.35 +
      holdingScoreOf c * 0.25) (n := 20) (by push_cast; linarith)
    exact_mod_cast this
  · have := jsRound_le (q := frequencyScoreOf a * 0.4 + turnoverScoreOf b * 0.35 +
      holdingScoreOf c * 0.25) (n := 91) (by push_cast; linarith)
    exact_mod_cast this

theorem lossAversionScore_bounds (a b c : ℚ) (d : ℕ) :
    10 ≤ lossAversionScore a b c d ∧ lossAversionScore a b c d ≤ 100 := by
  unfold lossAversionScore
  split_ifs <;> norm_num

theorem revengeScore_bounds (f n : ℕ) : 10 ≤ revengeScore f n ∧ revengeScore f n ≤ 90 := by
  unfold revengeScore; split_ifs <;> norm_num

theorem dispositionScore_bounds (a b c : ℚ) :
    10 ≤ dispositionScore a b c ∧ dispositionScore a b c ≤ 100 := by
  unfold dispositionScore
  split_ifs <;> norm_num

theorem riskEscalationScore_bounds (m : ℚ) (n : ℕ) :
    10 ≤ riskEscalationScore m n ∧ riskEscalationScore m n ≤ 95 := by
  unfold riskEscalationScore; split_ifs <;> norm_num

theorem overconfidenceScore_bounds (n : ℕ) (a : ℚ) (f : Bool) :
    15 ≤ overconfidenceScore n a f ∧ overconfidenceScore n a f ≤ 80 := by
  unfold overconfidenceScore; split_ifs <;> norm_num

theorem concentrationScore_bounds (h : ℚ) :
    15 ≤ concentrationScore h ∧ concentrationScore h ≤ 95 := by
  unfold concentrationScore; split_ifs <;> norm_num

theorem feeDragScore_bounds (a b : ℚ) : 15 ≤ feeDragScore a b ∧ feeDragScore a b ≤ 90 := by
  unfold feeDragScore; split_ifs <;> norm_num

theorem churnScore_bounds (a b : ℚ) : 10 ≤ churnScore a b ∧ churnScore a b ≤ 80 := by
  unfold churnScore; split_ifs <;> norm_num

theorem detectOvertrading_score_ge (trades : List Trade) (h : ¬ trades.length < 3) :
    20 ≤ (detectOvertrading trades).score := by
  unfold detectOvertrading
  rw [if_neg h]
  exact (overtradingScore_bounds _ _ _).1

theorem detectOvertrading_score_bounds (trades : List Trade) :
    0 ≤ (detectOvertrading trades).score ∧ (detectOvertrading trades).score ≤ 100 := by
  unfold detectOvertrading
  split_ifs with h
  · exact ⟨le_refl 0, by norm_num [emptyDetection]⟩
  · exact ⟨le_trans (by norm_num) (overtradingScore_bounds _ _ _).1,
      le_trans (overtradingScore_bounds _ _ _).2 (by norm_num)⟩

theorem detectLossAversion_score_bounds (trades : List Trade) :
    0 ≤ (detectLossAversion trades).score ∧ (detectLossAversion trades).score ≤ 100 := by
  unfold detectLossAversion
  split_ifs with h1
  · exact ⟨le_refl 0, by norm_num [emptyDetection]⟩
  · dsimp only
    by_cases h2 : (List.filter (fun t => decide (pnlOf t > 0)) trades).length = 0 ∨
        (List.filter (fun t => decide (pnlOf t < 0)) trades).length = 0
    · rw [if_pos h2]
      exact ⟨by norm_num, by norm_num⟩
    · rw [if_neg h2]
      exact ⟨le_trans (by norm_num) (lossAversionScore_bounds _ _ _ _).1,
        (lossAversionScore_bounds _ _ _ _).2⟩

theorem detectRevengeTrading_score_ge (trades : List Trade) (h : ¬ trades.length < 3) :
    10 ≤ (detectRevengeTrading trades).score := by
  unfold detectRevengeTrading
  rw [if_neg h]
  exact (revengeScore_bounds _ _).1

theorem detectRevengeTrading_score_bounds (trades : List Trade) :
    0 ≤ (detectRevengeTrading trades).score ∧ (detectRevengeTrading trades).score ≤ 100 := by
  unfold detectRevengeTrading
  split_ifs with h
  · exact ⟨le_refl 0, by norm_num [emptyDetection]⟩
  · exact ⟨le_trans (by norm_num) (revengeScore_bounds _ _).1,
      le_trans (revengeScore_bounds _ _).2 (by norm_num)⟩

theorem detectDispositionEffect_score_bounds (trades : List Trade) :
    0 ≤ (detectDispositionEffect trades).score ∧ (detectDispositionEffect trades).score ≤ 100 := by
  unfold detectDispositionEffect
  split_ifs with h1
  · exact ⟨le_refl 0, by norm_num [emptyDetection]⟩
  · dsimp only
    by_cases h2 : (List.filter (fun t => decide (pnlOf t > 0)) trades).length = 0 ∨
        (List.filter (fun t => decide (pnlOf t < 0)) trades).length = 0
    · rw [if_pos h2]
      exact ⟨by norm_num, by norm_num⟩
    · rw [if_neg h2]
      exact ⟨le_trans (by norm_num) (dispositionScore_bounds _ _ _).1,
        (dispositionScore_bounds _ _ _).2⟩

theorem detectRiskEscalation_score_bounds (trades : List Trade) :
    0 ≤ (detectRiskEscalation trades).score ∧ (detectRiskEscalation trades).score ≤ 100 := by
  unfold detectRiskEscalation
  split_ifs with h
  · exact ⟨le_refl 0, by norm_num [emptyDetection]⟩
  · exact ⟨le_trans (by norm_num) (riskEscalationScore_bounds _ _).1,
      le_trans (riskEscalationScore_bounds _ _).2 (by norm_num)⟩

theorem detectOverconfidence_score_bounds (trades : List Trade) :
    0 ≤ (detectOverconfidence trades).score ∧ (detectOverconfidence trades).score ≤ 100 := by
  unfold detectOverconfidence
  split_ifs with h
  · exact ⟨le_refl 0, by norm_num [emptyDetection]⟩
  · exact ⟨le_trans (by norm_num) (overconfidenceScore_bounds _ _ _).1,
      le_trans (overconfidenceScore_bounds _ _ _).2 (by norm_num)⟩

theorem detectConcentration_score_bounds (trades : List Trade) (positions : List Position) :
    0 ≤ (detectConcentration trades positions).score ∧
      (detectConcentration trades positions).score ≤ 100 := by
  unfold detectConcentration
  split_ifs with h
  · exact ⟨le_refl 0, by norm_num [emptyDetection]⟩
  · exact ⟨le_trans (by norm_num) (concentrationScore_bounds _).1,
      le_trans (concentrationScore_bounds _).2 (by norm_num)⟩

theorem detectFeeDrag_score_ge (trades : List Trade) (h : ¬ trades.length = 0) :
    15 ≤ (detectFeeDrag trades).score := by
  unfold detectFeeDrag
  rw [if_neg h]
  exact (feeDragScore_bounds _ _).1

theorem detectFeeDrag_score_bounds (trades : List Trade) :
    0 ≤ (detectFeeDrag trades).score ∧ (detectFeeDrag trades).score ≤ 100 := by
  unfold detectFeeDrag
  split_ifs with h
  · exact ⟨le_refl 0, by norm_num [emptyDetection]⟩
  · exact ⟨le_trans (by norm_num) (feeDragScore_bounds _ _).1,
      le_trans (feeDragScore_bounds _ _).2 (by norm_num)⟩

theorem detectChurn_score_bounds (trades : List Trade) :
    0 ≤ (detectChurn trades).score ∧ (detectChurn trades).score ≤ 100 := by
  unfold detectChurn
  split_ifs <;>
    first
      | exact ⟨le_refl 0, by norm_num [emptyDetection]⟩
      | exact ⟨le_trans (by norm_num) (churnScore_bounds _ _).1,
          le_trans (churnScore_bounds _ _).2 (by norm_num)⟩

theorem detector_score_bounds {trades : List Trade} {positions : List Position}
    {p : String × DetectionResult} (hp : p ∈ detectorResults trades positions) :
    0 ≤ p.2.score ∧ p.2.score ≤ 100 := by
  simp only [detectorResults, List.mem_cons, List.not_mem_nil, or_false] at hp
  rcases hp with h | h | h | h | h | h | h | h | h <;> subst h
  · exact detectOvertrading_score_bounds trades
  · exact detectLossAversion_score_bounds trades
  · exact detectRevengeTrading_score_bounds trades
  · exact detectDispositionEffect_score_bounds trades
  · exact detectRiskEscalation_score_bounds trades
  · exact detectOverconfidence_score_bounds trades
  · exact detectConcentration_score_bounds trades positions
  · exact detectFeeDrag_score_bounds trades
  · exact detectChurn_score_bounds trades

theorem insertBias_perm (x : BiasDetection) (l : List BiasDetection) :
    List.Perm (insertBias x l) (x :: l) := by
  induction l with
  | nil => exact List.Perm.refl _
  | cons y ys ih =>
      unfold insertBias
      split
      · exact List.Perm.refl _
      · exact (List.Perm.cons y ih).trans (List.Perm.swap x y ys)

theorem sortBiases_perm (l : List BiasDetection) : List.Perm (sortBiases l) l := by
  have key : ∀ (l acc : List BiasDetection),
      List.Perm (l.foldl (fun a x => insertBias x a) acc) (l ++ acc) := by
    intro l
    induction l with
    | nil => intro acc; simp
    | cons x xs ih =>
        intro acc
        simp only [List.foldl_cons]
        exact (ih (insertBias x acc)).trans
          ((List.Perm.append_left xs (insertBias_perm x acc)).trans List.perm_middle)
  simpa using key l []

theorem biasBefore_le {x y : BiasDetection} (h : biasBefore x y) : biasLE x y := by
  rcases h with h | ⟨h1, h2⟩
  · exact Or.inl h
  · exact Or.inr ⟨h1, le_of_lt h2⟩

theorem not_biasBefore_le {x y : BiasDetection} (h : ¬ biasBefore x y) : biasLE y x := by
  unfold biasBefore at h
  push_neg at h
  obtain ⟨h1, h2⟩ := h
  rcases eq_or_lt_of_le h1 with heq | hlt
  · exact Or.inr ⟨heq.symm, le_of_not_lt (h2 heq)⟩
  · exact Or.inl hlt

theorem biasLE_trans {x y z : BiasDetection} (h1 : biasLE x y) (h2 : biasLE y z) :
    biasLE x z := by
  rcases h1 with h1 | ⟨e1, i1⟩ <;> rcases h2 with h2 | ⟨e2, i2⟩
  · exact Or.inl (lt_trans h2 h1)
  · exact Or.inl (e2 ▸ h1)
  · exact Or.inl (e1 ▸ h2)
  · exact Or.inr ⟨e1.trans e2, le_trans i1 i2⟩

theorem insertBias_sorted (x : BiasDetection) {l : List BiasDetection}
    (h : l.Sorted biasLE) : (insertBias x l).Sorted biasLE := by
  induction l with
  | nil => simp [insertBias]
  | cons y ys ih =>
      rw [List.sorted_cons] at h
      obtain ⟨hy, hys⟩ := h
      unfold insertBias
      split_ifs with hc
      · rw [List.sorted_cons]
        refine ⟨?_, List.sorted_cons.mpr ⟨hy, hys⟩⟩
        intro b hb
        rcases List.mem_cons.mp hb with rfl | hb
        · exact biasBefore_le hc
        · exact biasLE_trans (biasBefore_le hc) (hy b hb)
      · rw [List.sorted_cons]
        refine ⟨?_, ih hys⟩
        intro b hb
        rcases List.mem_cons.mp ((insertBias_perm x ys).mem_iff.mp hb) with rfl | hb'
        · exact not_biasBefore_le hc
        · exact hy b hb'

theorem sortBiases_sorted (l : List BiasDetection) : (sortBiases l).Sorted biasLE := by
  have key : ∀ (l acc : List BiasDetection), acc.Sorted biasLE →
      (l.foldl (fun a x => insertBias x a) acc).Sorted biasLE := by
    intro l
    induction l with
    | nil => intro acc h; simpa using h
    | cons x xs ih => intro acc h; exact ih _ (insertBias_sorted x h)
  exact key l [] (by simp)

theorem analyzeBiases_biases (trades : List Trade) (positions : List Position) (now : String) :
    (analyzeBiases trades positions now).biases
      = sortBiases (assembledBiases trades positions now) := rfl

theorem mem_biases_iff {trades : List Trade} {positions : List Position} {now : String}
    {b : BiasDetection} :
    b ∈ (analyzeBiases trades positions now).biases ↔
      b ∈ assembledBiases trades positions now := by
  rw [analyzeBiases_biases]
  exact (sortBiases_perm _).mem_iff

theorem mem_assembled {trades : List Trade} {positions : List Position} {now : String}
    {b : BiasDetection} (hb : b ∈ assembledBiases trades positions now) :
    ∃ p ∈ detectorResults trades positions, 0 < p.2.score ∧ b = assembleBias trades now p := by
  rcases List.mem_map.mp hb with ⟨p, hp, rfl⟩
  have h := List.mem_filter.mp hp
  exact ⟨p, h.1, by simpa using h.2, rfl⟩

theorem analyzeBiases_disciplineScore (trades : List Trade) (positions : List Position)
    (now : String) :
    (analyzeBiases trades positions now).disciplineScore
      = jsRound (max 0 (min 100 (100 - (rawScores trades positions).sum / 9))) := by
  have hpos : (detectorResults trades positions).length > 0 := by simp [detectorResults]
  have hlen : (((detectorResults trades positions).length : ℕ) : ℚ) = 9 := by
    simp [detectorResults]
  unfold analyzeBiases
  dsimp only
  rw [if_pos hpos, hlen]
  rfl

/-! ## Claim theorems -/

/-- C1: for every input, the aggregator computes
`disciplineScore = round(clamp(100 - mean(all 9 raw scores), 0, 100))`, the
mean being over all nine detectors including zero-score ones; in particular,
on empty input (all nine detectors score 0) the discipline score is 100. -/
theorem discipline_score_is_clamped_rounded_mean (trades : List Trade)
    (positions : List Position) (now : String) :
    (analyzeBiases trades positions now).disciplineScore
        = jsRound (max 0 (min 100 (100 - (rawScores trades positions).sum / 9)))
      ∧ (analyzeBiases [] [] now).disciplineScore = 100 := by
  refine ⟨analyzeBiases_disciplineScore trades positions now, ?_⟩
  rw [analyzeBiases_disciplineScore]
  have hsum : (rawScores [] []).sum = 0 := by
    simp [rawScores, detectorResults, detectOvertrading, detectLossAversion,
      detectRevengeTrading, detectDispositionEffect, detectRiskEscalation,
      detectOverconfidence, detectConcentration, detectFeeDrag, detectChurn, emptyDetection]
  rw [hsum]
  have hclamp : max 0 (min 100 (100 - (0 : ℚ) / 9)) = 100 := by
    rw [show (100 : ℚ) - 0 / 9 = 100 by norm_num, min_self,
      max_eq_right (by norm_num : (0 : ℚ) ≤ 100)]
  rw [hclamp]
  unfold jsRound
  have hfl : ⌊(100 : ℚ) + 1/2⌋ = (100 : ℤ) := by
    rw [Int.floor_eq_iff]
    constructor <;> norm_num
  rw [hfl]
  norm_num

/-- C2: the severity classifier maps score at least 75 to critical, at least
50 to high, at least 25 to medium and anything below to low, and every
returned detection's severity equals this classification of its score. -/
theorem severity_classifier_contract :
    (∀ s : ℚ, getSeverity s =
        if s ≥ 75 then "critical"
        else if s ≥ 50 then "high"
        else if s ≥ 25 then "medium"
        else "low")
    ∧ ∀ (trades : List Trade) (positions : List Position) (now : String),
        ∀ b ∈ (analyzeBiases trades positions now).biases, b.severity = getSeverity b.score := by
  refine ⟨fun s => rfl, ?_⟩
  intro trades positions now b hb
  rcases mem_assembled (mem_biases_iff.mp hb) with ⟨p, _, _, rfl⟩
  rfl

theorem mem_detectorResults_fst_ne {trades : List Trade} {positions : List Position}
    {p : String × DetectionResult} (hp : p ∈ detectorResults trades positions) :
    p.1 ≠ "" := by
  simp only [detectorResults, List.mem_cons, List.not_mem_nil, or_false] at hp
  rcases hp with h | h | h | h | h | h | h | h | h <;> subst h <;> simp

/-- C3: the result list holds exactly the detections with positive score,
sorted by score descending with ties broken by id ascending; the summary
counts critical and high detections and reports the top-ranked bias type,
or the sentinel "none" on an empty list. -/
theorem output_sorted_filtered_and_summarized (trades : List Trade)
    (positions : List Position) (now : String) :
    List.Perm (analyzeBiases trades positions now).biases
        (assembledBiases trades positions now)
    ∧ List.Sorted biasLE (analyzeBiases trades positions now).biases
    ∧ (∀ b ∈ (analyzeBiases trades positions now).biases, 0 < b.score)
    ∧ (analyzeBiases trades positions now).summary.criticalBiases
        = ((analyzeBiases trades positions now).biases.filter
            (fun b => b.severity = "critical")).length
    ∧ (analyzeBiases trades positions now).summary.highBiases
        = ((analyzeBiases trades positions now).biases.filter
            (fun b => b.severity = "high")).length
    ∧ (analyzeBiases trades positions now).summary.topConcern
        = (((analyzeBiases trades positions now).biases.head?).map
            (fun b => b.bias_type)).getD "none" := by
  have hmem : ∀ b ∈ (analyzeBiases trades positions now).biases, b.bias_type ≠ "" := by
    intro b hb
    rcases mem_assembled (mem_biases_iff.mp hb) with ⟨p, hp, _, rfl⟩
    exact mem_detectorResults_fst_ne hp
  refine ⟨?_, ?_, ?_, rfl, rfl, ?_⟩
  · rw [analyzeBiases_biases]; exact sortBiases_perm _
  · rw [analyzeBiases_biases]; exact sortBiases_sorted _
  · intro b hb
    rcases mem_assembled (mem_biases_iff.mp hb) with ⟨p, _, hpos, rfl⟩
    exact hpos
  · have hsum : (analyzeBiases trades positions now).summary.topConcern
        = topConcernOf ((analyzeBiases trades positions now).biases) := rfl
    rw [hsum]
    generalize hg : (analyzeBiases trades positions now).biases = l at hmem
    cases l with
    | nil => rfl
    | cons b rest =>
        have hb : b.bias_type ≠ "" := hmem b (List.mem_cons_self b rest)
        simp [topConcernOf, hb]

/-- C4: every detector with a minimum sample size returns score 0 and empty
evidence below it (overtrading and revenge trading need 3 trades, loss
aversion, disposition effect and overconfidence need 5, risk escalation and
churn need 4), and concentration does the same on an empty positions array. -/
theorem sample_size_floor (trades : List Trade) :
    (trades.length < 3 →
      detectOvertrading trades = emptyDetection ∧
        detectRevengeTrading trades = emptyDetection)
    ∧ (trades.length < 5 →
      detectLossAversion trades = emptyDetection ∧
        detectDispositionEffect trades = emptyDetection ∧
        detectOverconfidence trades = emptyDetection)
    ∧ (trades.length < 4 →
      detectRiskEscalation trades = emptyDetection ∧ detectChurn trades = emptyDetection)
    ∧ detectConcentration trades [] = emptyDetection := by
  refine ⟨fun h => ⟨?_, ?_⟩, fun h => ⟨?_, ?_, ?_⟩, fun h => ⟨?_, ?_⟩, ?_⟩
  · unfold detectOvertrading; rw [if_pos h]
  · unfold detectRevengeTrading; rw [if_pos h]
  · unfold detectLossAversion; rw [if_pos h]
  · unfold detectDispositionEffect; rw [if_pos h]
  · unfold detectOverconfidence; rw [if_pos h]
  · unfold detectRiskEscalation; rw [if_pos h]
  · unfold detectChurn; rw [if_pos h]
  · unfold detectConcentration
    rw [if_pos (show ([] : List Position).length = 0 from rfl)]

/-- Replace a record's `detected_at` stamp (the only output field that
depends on the wall clock). -/
def withDetectedAt (now : String) (b : BiasDetection) : BiasDetection :=
  { b with detected_at := now }

theorem assembledBiases_withDetectedAt (trades : List Trade) (positions : List Position)
    (now : String) :
    assembledBiases trades positions now
      = (assembledBiases trades positions "").map (withDetectedAt now) := by
  unfold assembledBiases
  rw [List.map_map]
  rfl

theorem insertBias_map_withDetectedAt (now : String) (x : BiasDetection)
    (l : List BiasDetection) :
    insertBias (withDetectedAt now x) (l.map (withDetectedAt now))
      = (insertBias x l).map (withDetectedAt now) := by
  induction l with
  | nil => rfl
  | cons y ys ih =>
      simp only [List.map_cons]
      unfold insertBias
      by_cases hc : biasBefore x y
      · have hc' : biasBefore (withDetectedAt now x) (withDetectedAt now y) := hc
        rw [if_pos hc', if_pos hc]
        simp
      · have hc' : ¬ biasBefore (withDetectedAt now x) (withDetectedAt now y) := hc
        rw [if_neg hc', if_neg hc, List.map_cons, ← ih]

theorem sortBiases_map_withDetectedAt (now : String) (l : List BiasDetection) :
    sortBiases (l.map (withDetectedAt now)) = (sortBiases l).map (withDetectedAt now) := by
  have key : ∀ (l acc : List BiasDetection),
      (l.map (withDetectedAt now)).foldl (fun a x => insertBias x a)
          (acc.map (withDetectedAt now))
        = (l.foldl (fun a x => insertBias x a) acc).map (withDetectedAt now) := by
    intro l
    induction l with
    | nil => intro acc; rfl
    | cons x xs ih =>
        intro acc
        simp only [List.map_cons, List.foldl_cons]
        rw [insertBias_map_withDetectedAt, ih]
  simpa using key l []

theorem analyzeBiases_biases_withDetectedAt (trades : List Trade) (positions : List Position)
    (now : String) :
    (analyzeBiases trades positions now).biases
      = (sortBiases (assembledBiases trades positions "")).map (withDetectedAt now) := by
  rw [analyzeBiases_biases, assembledBiases_withDetectedAt trades positions now,
    sortBiases_map_withDetectedAt]

/-- C5: two calls of the entry point on the same `(trades, positions)` pair
(differing only in the wall-clock stamp) produce identical ids, bias types,
scores and ordering, and an identical discipline score; and the id of every
returned detection is the pure function `buildDeterministicBiasId` of its
bias type, its symbol context and its evidence. -/
theorem analysis_deterministic_and_id_pure (trades : List Trade) (positions : List Position)
    (now1 now2 : String) :
    ((analyzeBiases trades positions now1).biases.map (fun b => (b.id, b.bias_type, b.score))
      = (analyzeBiases trades positions now2).biases.map (fun b => (b.id, b.bias_type, b.score)))
    ∧ (analyzeBiases trades positions now1).disciplineScore
        = (analyzeBiases trades positions now2).disciplineScore
    ∧ ∀ b ∈ (analyzeBiases trades positions now1).biases,
        b.id = buildDeterministicBiasId b.bias_type
          (getBiasSymbolContext b.metrics b.affected_trades (tradeById trades)) b.metrics := by
    refine ⟨?_, rfl, ?_⟩
    · rw [analyzeBiases_biases_withDetectedAt trades positions now1,
        analyzeBiases_biases_withDetectedAt trades positions now2,
        List.map_map, List.map_map]
      rfl
    · intro b hb
      rcases mem_assembled (mem_biases_iff.mp hb) with ⟨p, _, _, rfl⟩
      rfl

/-- C6: every returned detection's score lies in [0, 100], and the returned
discipline score lies in [0, 100]. -/
theorem scores_within_bounds (trades : List Trade) (positions : List Position) (now : String) :
    (∀ b ∈ (analyzeBiases trades positions now).biases, 0 ≤ b.score ∧ b.score ≤ 100)
    ∧ 0 ≤ (analyzeBiases trades positions now).disciplineScore
    ∧ (analyzeBiases trades positions now).disciplineScore ≤ 100 := by
  refine ⟨?_, ?_, ?_⟩
  · intro b hb
    rcases mem_assembled (mem_biases_iff.mp hb) with ⟨p, hp, _, rfl⟩
    exact detector_score_bounds hp
  · rw [analyzeBiases_disciplineScore]
    have h1 : (0 : ℚ) ≤ max 0 (min 100 (100 - (rawScores trades positions).sum / 9)) :=
      le_max_left _ _
    have h2 := le_jsRound (n := 0)
      (q := max 0 (min 100 (100 - (rawScores trades positions).sum / 9)))
      (by push_cast; linarith)
    exact_mod_cast h2
  · rw [analyzeBiases_disciplineScore]
    have h1 : max 0 (min 100 (100 - (rawScores trades positions).sum / 9)) ≤ 100 :=
      max_le (by norm_num) (min_le_left _ _)
    have h2 := jsRound_le (n := 100)
      (q := max 0 (min 100 (100 - (rawScores trades positions).sum / 9)))
      (by push_cast; linarith)
    exact_mod_cast h2

/-- The spec's revenge-trading scenario: a SELL losing $60 on a $1000 trade,
a BUY 10 minutes later of total value 1400 (1.4 times the prior trade), and
one later unrelated trade so the detector's 3-trade minimum is met. -/
def revengeScenarioTrades : List Trade :=
  [{ id := "t1", symbol := "AAPL", action := "SELL", quantity := 10, price := 100,
     total_value := 1000, fees := 1, timestamp := { day := "2024-01-01", ms := 0 },
     pnl := some (-60) },
   { id := "t2", symbol := "AAPL", action := "BUY", quantity := 14, price := 100,
     total_value := 1400, fees := 1, timestamp := { day := "2024-01-01", ms := 600000 },
     pnl := none },
   { id := "t3", symbol := "AAPL", action := "BUY", quantity := 14, price := 100,
     total_value := 1400, fees := 1, timestamp := { day := "2024-01-15", ms := 1209600000 },
     pnl := none }]

unseal Rat.add Rat.mul Rat.sub Rat.inv Rat.ofScientific in
/-- C7: given at least 3 trades, the revenge-trading score is 90 when at
least 2 full-pattern matches exist, else 75 when at least 3 revenge
instances, 55 when at least 2, 35 when at least 1, and 10 otherwise; and the
spec's scenario (a SELL losing $60 followed 10 minutes later by a BUY of 1.4
times its value) registers exactly one full-pattern revenge instance. -/
theorem revenge_full_pattern_and_bands (trades : List Trade) (h : ¬ trades.length < 3) :
    ((detectRevengeTrading trades).score
        = revengeScore (fullPatternMatches (revengePairs (sortByTime trades)))
            (revengePairs (sortByTime trades)).length)
    ∧ (∀ f n : ℕ, revengeScore f n =
        if f ≥ 2 then 90
        else if n ≥ 3 then 75
        else if n ≥ 2 then 55
        else if n ≥ 1 then 35
        else 10)
    ∧ (revengePairs (sortByTime revengeScenarioTrades)).length = 1
    ∧ fullPatternMatches (revengePairs (sortByTime revengeScenarioTrades)) = 1
    ∧ (detectRevengeTrading revengeScenarioTrades).score = 35 := by
  refine ⟨?_, fun f n => rfl, ?_, ?_, ?_⟩
  · unfold detectRevengeTrading
    rw [if_neg h]
  · decide
  · decide
  · decide

/-- C8: with at least the minimum 5 trades but no winners or no losers, the
ratio-based detectors return their fixed low floor (15 for loss aversion,
10 for disposition effect) with an explanatory message instead of 0. -/
theorem ratio_detectors_floor_on_onesided_outcomes (trades : List Trade)
    (h5 : ¬ trades.length < 5)
    (hmix : (trades.filter (fun t => pnlOf t > 0)).length = 0 ∨
            (trades.filter (fun t => pnlOf t < 0)).length = 0) :
    (detectLossAversion trades).score = 15
    ∧ (detectLossAversion trades).intervention = "Not enough mixed results to analyze."
    ∧ (detectDispositionEffect trades).score = 10
    ∧ (detectDispositionEffect trades).intervention
        = "Not enough mixed results for disposition analysis." := by
  have hla : detectLossAversion trades =
      { score := 15, evidence := [],
        intervention := "Not enough mixed results to analyze.", affectedTrades := [] } := by
    unfold detectLossAversion
    rw [if_neg h5]
    dsimp only
    rw [if_pos hmix]
  have hde : detectDispositionEffect trades =
      { score := 10, evidence := [],
        intervention := "Not enough mixed results for disposition analysis.",
        affectedTrades := [] } := by
    unfold detectDispositionEffect
    rw [if_neg h5]
    dsimp only
    rw [if_pos hmix]
  rw [hla, hde]
  exact ⟨rfl, rfl, rfl, rfl⟩

/-- C9: the fee-drag ratio falls back to 0 when the gross P&L (realized P&L
plus total fees) is exactly zero, and otherwise equals total fees divided by
the absolute gross P&L, times 100. -/
theorem fee_drag_ratio_guarded (trades : List Trade) :
    (grossPnlOf trades = 0 → feeDragRatioOf trades = 0)
    ∧ (grossPnlOf trades ≠ 0 →
        feeDragRatioOf trades = totalFeesOf trades / |grossPnlOf trades| * 100) := by
  constructor
  · intro h
    unfold feeDragRatioOf
    rw [if_neg (not_not_intro h)]
  · intro h
    unfold feeDragRatioOf
    rw [if_pos h]

/-- C10: with at least 3 trades the discipline score cannot exceed 95:
overtrading contributes at least 20, revenge trading at least 10 and fee
drag at least 15, so the mean of the nine raw scores is at least 5. -/
theorem discipline_score_capped_at_95 (trades : List Trade) (positions : List Position)
    (now : String) (h3 : 3 ≤ trades.length) :
    20 ≤ (detectOvertrading trades).score
    ∧ 10 ≤ (detectRevengeTrading trades).score
    ∧ 15 ≤ (detectFeeDrag trades).score
    ∧ 5 ≤ (rawScores trades positions).sum / 9
    ∧ (analyzeBiases trades positions now).disciplineScore ≤ 95 := by
  have hnot3 : ¬ trades.length < 3 := not_lt.mpr h3
  have hne : ¬ trades.length = 0 := by omega
  have h1 := detectOvertrading_score_ge trades hnot3
  have h2 := detectRevengeTrading_score_ge trades hnot3
  have h3f := detectFeeDrag_score_ge trades hne
  have hsum : 45 ≤ (rawScores trades positions).sum := by
    have hla := (detectLossAversion_score_bounds trades).1
    have hde := (detectDispositionEffect_score_bounds trades).1
    have hre := (detectRiskEscalation_score_bounds trades).1
    have hoc := (detectOverconfidence_score_bounds trades).1
    have hcb := (detectConcentration_score_bounds trades positions).1
    have hch := (detectChurn_score_bounds trades).1
    simp only [rawScores, detectorResults, List.map_cons, List.map_nil, List.sum_cons,
      List.sum_nil]
    linarith
  have hmean : (5 : ℚ) ≤ (rawScores trades positions).sum / 9 := by linarith
  refine ⟨h1, h2, h3f, hmean, ?_⟩
  rw [analyzeBiases_disciplineScore]
  have hle : max 0 (min 100 (100 - (rawScores trades positions).sum / 9)) ≤ 95 := by
    apply max_le (by norm_num)
    apply le_trans (min_le_right _ _)
    linarith
  have hfin := jsRound_le (n := 95)
    (q := max 0 (min 100 (100 - (rawScores trades positions).sum / 9)))
    (by push_cast; linarith)
  exact_mod_cast hfin

/-! ## Concrete witness inputs -/

/-- A single fully-concentrated position; running the engine on it returns a
nonempty bias list (concentration scores 95 on one position). -/
def witnessPosition : Position := { symbol := "AAPL", current_value := 100 }

/-- A fixed wall-clock stamp for concrete runs. -/
def witnessNow : String := "2025-01-01T00:00:00.000Z"

/-- Five trades that are all winners (no losers), above the ratio detectors'
minimum sample size. -/
def allWinnersTrades : List Trade :=
  [{ id := "w1", symbol := "AAPL", action := "SELL", quantity := 1, price := 10,
     total_value := 10, fees := 1, timestamp := { day := "2024-01-01", ms := 0 },
     pnl := some 10 },
   { id := "w2", symbol := "AAPL", action := "SELL", quantity := 1, price := 10,
     total_value := 10, fees := 1, timestamp := { day := "2024-01-02", ms := 86400000 },
     pnl := some 10 },
   { id := "w3", symbol := "AAPL", action := "SELL", quantity := 1, price := 10,
     total_value := 10, fees := 1, timestamp := { day := "2024-01-03", ms := 172800000 },
     pnl := some 10 },
   { id := "w4", symbol := "AAPL", action := "SELL", quantity := 1, price := 10,
     total_value := 10, fees := 1, timestamp := { day := "2024-01-04", ms := 259200000 },
     pnl := some 10 },
   { id := "w5", symbol := "AAPL", action := "SELL", quantity := 1, price := 10,
     total_value := 10, fees := 1, timestamp := { day := "2024-01-05", ms := 345600000 },
     pnl := some 10 }]

/-- One trade whose realized loss exactly cancels its fees, so the gross P&L
is exactly zero. -/
def zeroGrossTrades : List Trade :=
  [{ id := "z1", symbol := "AAPL", action := "SELL", quantity := 1, price := 10,
     total_value := 10, fees := 10, timestamp := { day := "2024-01-01", ms := 0 },
     pnl := some (-10) }]

/-! ## Witness theorems -/

unseal Rat.add Rat.mul Rat.sub Rat.inv Rat.ofScientific in
/-- C2 witness: the severity/score equation of `severity_classifier_contract`
at the first detection of a concrete run. -/
theorem severity_classifier_contract_witness :
    ((analyzeBiases [] [witnessPosition] witnessNow).biases.head (by decide)).severity
      = getSeverity
          ((analyzeBiases [] [witnessPosition] witnessNow).biases.head (by decide)).score :=
  severity_classifier_contract.2 [] [witnessPosition] witnessNow _ (List.head_mem _)

unseal Rat.add Rat.mul Rat.sub Rat.inv Rat.ofScientific in
/-- C3 witness: positivity of the first returned score on a concrete run. -/
theorem output_sorted_filtered_and_summarized_witness :
    0 < ((analyzeBiases [] [witnessPosition] witnessNow).biases.head (by decide)).score :=
  (output_sorted_filtered_and_summarized [] [witnessPosition] witnessNow).2.2.1 _
    (List.head_mem _)

/-- C4 witness: the sample-size floors instantiated on the empty trade list. -/
theorem sample_size_floor_witness :
    detectOvertrading [] = emptyDetection ∧ detectLossAversion [] = emptyDetection ∧
      detectRiskEscalation [] = emptyDetection ∧ detectConcentration [] [] = emptyDetection :=
  ⟨((sample_size_floor []).1 (by decide)).1, ((sample_size_floor []).2.1 (by decide)).1,
    ((sample_size_floor []).2.2.1 (by decide)).1, (sample_size_floor []).2.2.2⟩

unseal Rat.add Rat.mul Rat.sub Rat.inv Rat.ofScientific in
/-- C5 witness: the deterministic-id equation at the first detection of a
concrete run. -/
theorem analysis_deterministic_and_id_pure_witness :
    ((analyzeBiases [] [witnessPosition] witnessNow).biases.head (by decide)).id
      = buildDeterministicBiasId
          ((analyzeBiases [] [witnessPosition] witnessNow).biases.head (by decide)).bias_type
          (getBiasSymbolContext
            ((analyzeBiases [] [witnessPosition] witnessNow).biases.head (by decide)).metrics
            ((analyzeBiases [] [witnessPosition] witnessNow).biases.head
              (by decide)).affected_trades
            (tradeById []))
          ((analyzeBiases [] [witnessPosition] witnessNow).biases.head (by decide)).metrics :=
  (analysis_deterministic_and_id_pure [] [witnessPosition] witnessNow witnessNow).2.2 _
    (List.head_mem _)

unseal Rat.add Rat.mul Rat.sub Rat.inv Rat.ofScientific in
/-- C6 witness: the score bounds at the first detection of a concrete run. -/
theorem scores_within_bounds_witness :
    0 ≤ ((analyzeBiases [] [witnessPosition] witnessNow).biases.head (by decide)).score ∧
      ((analyzeBiases [] [witnessPosition] witnessNow).biases.head (by decide)).score ≤ 100 :=
  (scores_within_bounds [] [witnessPosition] witnessNow).1 _ (List.head_mem _)

unseal Rat.add Rat.mul Rat.sub Rat.inv Rat.ofScientific in
/-- C7 witness: the revenge-trading band theorem instantiated on the spec's
concrete scenario. -/
theorem revenge_full_pattern_and_bands_witness :
    (detectRevengeTrading revengeScenarioTrades).score
      = revengeScore (fullPatternMatches (revengePairs (sortByTime revengeScenarioTrades)))
          (revengePairs (sortByTime revengeScenarioTrades)).length :=
  (revenge_full_pattern_and_bands revengeScenarioTrades (by decide)).1

unseal Rat.add Rat.mul Rat.sub Rat.inv Rat.ofScientific in
/-- C8 witness: the ratio-detector floors on five all-winning trades. -/
theorem ratio_detectors_floor_on_onesided_outcomes_witness :
    (detectLossAversion allWinnersTrades).score = 15
      ∧ (detectDispositionEffect allWinnersTrades).score = 10 :=
  ⟨(ratio_detectors_floor_on_onesided_outcomes allWinnersTrades (by decide)
      (Or.inr (by decide))).1,
    (ratio_detectors_floor_on_onesided_outcomes allWinnersTrades (by decide)
      (Or.inr (by decide))).2.2.1⟩

unseal Rat.add Rat.mul Rat.sub Rat.inv Rat.ofScientific in
/-- C9 witness: the guarded fee-drag ratio on a break-even trade list. -/
theorem fee_drag_ratio_guarded_witness : feeDragRatioOf zeroGrossTrades = 0 :=
  (fee_drag_ratio_guarded zeroGrossTrades).1 (by decide)

unseal Rat.add Rat.mul Rat.sub Rat.inv Rat.ofScientific in
/-- C10 witness: the discipline-score cap on a concrete 3-trade input. -/
theorem discipline_score_capped_at_95_witness :
    (analyzeBiases revengeScenarioTrades [] witnessNow).disciplineScore ≤ 95 :=
  (discipline_score_capped_at_95 revengeScenarioTrades [] witnessNow (by decide)).2.2.2.2

end BiasDetector
